import Mathlib

/-!
Verification development for the server resource controller in
`nova/api/openstack/servers.py` (instance-lifecycle REST controller).

The controller is shallowly embedded: Python dictionaries become
association lists, the backend compute API becomes an oracle mapping an
operation name to a typed success-or-exception result, and every
controller method becomes a pure function returning an `Outcome`
(an HTTP response status, or an exception that escapes the controller
unhandled).  Definitions follow the source file; the few collaborators
that live outside the repository snapshot (the power-state table, the
string-to-bool and href helpers, the server-name validator) are modelled
from the specification and carry a doc comment saying so.
-/

set_option autoImplicit false

namespace NovaServers

/-! ## Exceptions, HTTP outcomes and backend oracle -/

/-- The exceptions that flow through this controller: the typed nova
exceptions, raised webob HTTP exceptions (carrying their status code),
the Python builtin errors the code can raise, and a catch-all for any
other exception a backend call may raise. -/
inductive Exc where
  | notFound
  | invalidInput (reason : String)
  | adminRequired
  | buildInProgress
  | valueError
  | keyError (key : String)
  | httpExc (code : Nat)
  | backend (tag : String)
deriving DecidableEq, Repr

/-- Result of handling one HTTP request at this layer.  `status c` is an
HTTP response with status `c` and an empty body (a returned
`webob.Response`, a returned result dict, or a raised webob exception,
which the wsgi layer renders with that status); `unhandled e` is a
non-HTTP exception propagating out of the controller unhandled. -/
inductive Outcome where
  | status (code : Nat)
  | unhandled (e : Exc)
deriving DecidableEq, Repr

/-- The backend compute-orchestration oracle: for each operation name,
either the call returns normally or it raises an exception.  The
controller is verified for every possible oracle. -/
abbrev ComputeApi := String → Except Exc Unit

/-! ## Search options (Python dict of query options) -/

/-- Values stored in the search-options dictionary: raw query strings,
plus the results of the coercions the listing pipeline applies. -/
inductive OptVal where
  | str (s : String)
  | int (n : Int)
  | bool (b : Bool)
  | states (l : List Int)
deriving DecidableEq, Repr

/-- `search_options` dictionary: option name to value. -/
abbrev SearchOpts := List (String × OptVal)

/-- The string content of an option value (query values are strings). -/
def OptVal.asStr : OptVal → String
  | .str s => s
  | _ => ""

/-- Dictionary lookup (first binding wins). -/
def optLookup : SearchOpts → String → Option OptVal
  | [], _ => none
  | (k, v) :: rest, key => if k = key then some v else optLookup rest key

/-- Dictionary `pop`: remove every binding of a key. -/
def optErase : SearchOpts → String → SearchOpts
  | [], _ => []
  | (a, b) :: t, k => if a = k then optErase t k else (a, b) :: optErase t k

/-- Dictionary assignment `d[k] = v`. -/
def optInsert (m : SearchOpts) (k : String) (v : OptVal) : SearchOpts :=
  optErase m k ++ [(k, v)]

/-- A raw HTTP query string, as a list of key-value pairs. -/
abbrev Query := List (String × String)

/-- Lookup in the raw query (first binding wins). -/
def queryLookup : Query → String → Option String
  | [], _ => none
  | (k, v) :: rest, key => if k = key then some v else queryLookup rest key

/-- Remove every binding of a key from a raw query. -/
def queryErase : Query → String → Query
  | [], _ => []
  | (a, b) :: t, k => if a = k then queryErase t k else (a, b) :: queryErase t k

/-- `search_opts.update(req.str_GET)`: the query becomes the initial
search-options dictionary, every value a string. -/
def queryToOpts (query : Query) : SearchOpts :=
  query.map (fun kv => (kv.1, OptVal.str kv.2))

/-! ## Configuration and request context -/

/-- The process-wide flags the controller reads (`FLAGS.allow_admin_api`). -/
structure Flags where
  allow_admin_api : Bool
deriving DecidableEq, Repr

/-- The caller context (`req.environ` nova context). -/
structure Ctx where
  is_admin : Bool
deriving DecidableEq, Repr

/-- The `admin_api` privileged-option list built in
`Controller._servers_from_request`. -/
def admin_api : List String := ["ip", "ip6", "instance_name"]

/-! ## Option sanitizer: `check_admin_search_options` -/

/-- `check_admin_search_options(context, search_options, admin_api_options)`:
if the admin API is disabled, strip every admin option and succeed; if the
caller is admin, succeed unchanged; otherwise collect the admin options
present and raise `AdminRequired` when any exist, else succeed unchanged.
The returned dictionary is the (possibly stripped) `search_options`. -/
def check_admin_search_options (flags : Flags) (context : Ctx)
    (search_options : SearchOpts) (admin_api_options : List String) :
    Except Exc SearchOpts :=
  if flags.allow_admin_api = false then
    .ok (admin_api_options.foldl (fun so opt => optErase so opt) search_options)
  else if context.is_admin then
    .ok search_options
  else
    let spec_admin_opts :=
      (search_options.map Prod.fst).filter (fun o => admin_api_options.contains o)
    if spec_admin_opts.isEmpty then .ok search_options
    else .error .adminRequired

/-! ## External helpers not in the repository snapshot -/

/-- Modelled from the spec: `power_state.states_from_status` lives in
`nova/compute/power_state.py`, which is not under `src/`.  The spec pins
only that the translation is a fixed table, that `ACTIVE` maps to a
non-empty set of backend power states, and that an unrecognized status
maps to the empty set. -/
def states_from_status (status : String) : List Int :=
  if status = "ACTIVE" then [1] else []

/-- Modelled from the spec: `utils.bool_from_str` lives in
`nova/utils.py`, not under `src/`.  The spec pins only that
`recurse_zones` is coerced to a boolean and that an absent or
unparseable value becomes `false`. -/
def bool_from_str (v : Option OptVal) : Bool :=
  match v with
  | some (.str s) => s = "true" || s = "True" || s = "1"
  | _ => false

/-- Split a character list on `/` separators. -/
def splitSlash : List Char → List (List Char)
  | [] => [[]]
  | c :: rest =>
      let r := splitSlash rest
      if c = '/' then [] :: r
      else
        match r with
        | [] => [[c]]
        | h :: t => (c :: h) :: t

/-- Modelled from the spec: `common.get_id_from_href` lives in
`nova/api/openstack/common.py`, not under `src/`.  The spec pins that a
hyperlink reference such as `http://host/images/5` resolves to its
trailing id `5`, the segment after the last slash. -/
def get_id_from_href (href : String) : String :=
  String.mk (((splitSlash href.data).getLast?).getD href.data)

/-- Character-level whitespace test used by the `int()` model. -/
def isSpaceChar (c : Char) : Bool :=
  c = ' ' || c = '\t' || c = '\n' || c = '\r'

/-- Strip leading and trailing whitespace from a character list. -/
def trimChars (l : List Char) : List Char :=
  ((l.dropWhile isSpaceChar).reverse.dropWhile isSpaceChar).reverse

/-- Digit test for the `int()` model. -/
def isDigitChar (c : Char) : Bool :=
  '0' ≤ c && c ≤ '9'

/-- Numeric value of a digit list. -/
def digitsVal (l : List Char) : Nat :=
  l.foldl (fun a c => a * 10 + (c.toNat - 48)) 0

/-- Parse a non-empty all-digit character list. -/
def parseDigits (l : List Char) : Option Nat :=
  if l.isEmpty then none
  else if l.all isDigitChar then some (digitsVal l) else none

/-- Python `int(s)` on a string: optional surrounding whitespace, an
optional sign, then one or more digits; anything else raises
`ValueError` (here: `none`). -/
def pyInt (s : String) : Option Int :=
  match trimChars s.data with
  | '+' :: rest => (parseDigits rest).map Int.ofNat
  | '-' :: rest => (parseDigits rest).map (fun n => -(n : Int))
  | l => (parseDigits l).map Int.ofNat

/-! ## Listing pipeline -/

/-- The search-option part of `Controller._servers_search`: pop `status`
and translate it through the power-state table (setting `state` first and
then raising `InvalidInput` when the translation is empty, as the source
does), drop the transport-only options, and return the dictionary that is
passed to `compute_api.get_all`. -/
def servers_search_opts (search_opts : SearchOpts) : Except Exc SearchOpts :=
  let status := optLookup search_opts "status"
  let search_opts := optErase search_opts "status"
  match status with
  | some v =>
      let states := states_from_status v.asStr
      let search_opts := optInsert search_opts "state" (.states states)
      if states.length = 0 then
        .error (.invalidInput ("Invalid server status: " ++ v.asStr))
      else
        .ok (optErase (optErase search_opts "changes-since") "fresh")
  | none => .ok (optErase (optErase search_opts "changes-since") "fresh")

/-- The coercions `Controller._servers_from_request` applies after the
admin check: coerce `recurse_zones` to a boolean, coerce `flavor` with
`int()` when present (a non-numeric value raises `ValueError`), then run
`_servers_search`. -/
def after_admin_check (search_opts : SearchOpts) : Except Exc SearchOpts :=
  let so := optInsert search_opts "recurse_zones"
      (.bool (bool_from_str (optLookup search_opts "recurse_zones")))
  match optLookup so "flavor" with
  | some v =>
      match pyInt v.asStr with
      | none => .error .valueError
      | some n => servers_search_opts (optInsert so "flavor" (.int n))
  | none => servers_search_opts so

/-- `Controller._servers_from_request`, restricted to computing the
dictionary handed to `compute_api.get_all`: build the options from the
query, run `check_admin_search_options` (an `AdminRequired` from it is
caught and re-raised as `HTTPForbidden`, status 403), then apply the
coercions.  An error means `get_all` is never invoked. -/
def servers_from_request_core (flags : Flags) (ctx : Ctx) (query : Query) :
    Except Exc SearchOpts :=
  match check_admin_search_options flags ctx (queryToOpts query) admin_api with
  | .error _ => .error (.httpExc 403)
  | .ok so => after_admin_check so

/-- The argument `compute_api.get_all` receives for a listing request, or
`none` when the backend listing call is never invoked. -/
def get_all_arg (flags : Flags) (ctx : Ctx) (query : Query) :
    Option SearchOpts :=
  match servers_from_request_core flags ctx query with
  | .ok m => some m
  | .error _ => none

/-- How `Controller.index` surfaces an exception raised inside
`_servers_from_request` or by the `get_all` call: a raised webob
exception keeps its status, `exception.Invalid` (of which `InvalidInput`
is a subclass, per the spec error taxonomy) becomes 400, `NotFound`
becomes 404, and anything else propagates unhandled. -/
def listingExcOutcome (e : Exc) : Outcome :=
  match e with
  | .httpExc code => .status code
  | .invalidInput _ => .status 400
  | .notFound => .status 404
  | e => .unhandled e

/-- `Controller.index`: run the pipeline, call `get_all` on success, and
map exceptions as the source try/except does.  The view building after a
successful backend call is collapsed to a 200 response. -/
def Controller_index (flags : Flags) (ctx : Ctx) (query : Query)
    (get_all : SearchOpts → Except Exc Unit) : Outcome :=
  match servers_from_request_core flags ctx query with
  | .error e => listingExcOutcome e
  | .ok opts =>
      match get_all opts with
      | .ok _ => .status 200
      | .error e => listingExcOutcome e

/-! ## Request bodies -/

/-- A parsed request-body value (the deserializer hands the controller a
structure of nested mappings, lists and scalars). -/
inductive JVal where
  | str (s : String)
  | num (n : Int)
  | bool (b : Bool)
  | obj (fields : List (String × JVal))
  | arr (elems : List JVal)
  | null
deriving Repr

/-- Lookup in a parsed mapping (first binding wins). -/
def jlookup : List (String × JVal) → String → Option JVal
  | [], _ => none
  | (k, v) :: rest, key => if k = key then some v else jlookup rest key

/-- `v[k]` on a body value: defined only on mappings.  Membership tests
and indexing on non-mapping values are collapsed to the absent case. -/
def JVal.getKey : JVal → String → Option JVal
  | .obj l, k => jlookup l k
  | _, _ => none

/-- A parsed request body: the top-level mapping. -/
abbrev Body := List (String × JVal)

/-- `body[k1][k2]` guarded by the `k1 in body and k2 in body[k1]`
pattern the handlers use. -/
def getPath (body : Body) (k1 k2 : String) : Option JVal :=
  match jlookup body k1 with
  | some v => v.getKey k2
  | none => none

/-- Python truthiness of a body value (`if metadata:`). -/
def jtruthy : JVal → Bool
  | .null => false
  | .str s => !s.isEmpty
  | .num n => n != 0
  | .bool b => b
  | .obj l => !l.isEmpty
  | .arr l => !l.isEmpty

/-- One backend invocation: the operation name and the request-derived
arguments the controller passes it. -/
abbrev BackendCall := String × List JVal

/-- Result of one action handler: the backend calls it issued, in order,
and the HTTP outcome. -/
structure ActionResult where
  calls : List BackendCall
  outcome : Outcome
deriving Repr

/-! ## Per-action handlers -/

/-- Protocol generation served by the resource. -/
inductive Version where
  | v10
  | v11
deriving DecidableEq, Repr

/-- Base `Controller._action_change_password` (the legacy controller does
not override it): returns `HTTPNotImplemented`. -/
def action_change_password_v10 (_compute : ComputeApi) (_body : Body) :
    ActionResult :=
  ⟨[], .status 501⟩

/-- `ControllerV11._action_change_password`: a missing or non-string or
empty `changePassword.adminPass` is a 400; otherwise
`set_admin_password` is called with no surrounding handler, so a backend
exception propagates unhandled; success is 202. -/
def action_change_password_v11 (compute : ComputeApi) (body : Body) :
    ActionResult :=
  match getPath body "changePassword" "adminPass" with
  | some (.str password) =>
      if password = "" then ⟨[], .status 400⟩
      else
        match compute "set_admin_password" with
        | .ok _ => ⟨[("set_admin_password", [.str password])], .status 202⟩
        | .error e => ⟨[("set_admin_password", [.str password])], .unhandled e⟩
  | some _ => ⟨[], .status 400⟩
  | none => ⟨[], .status 400⟩

/-- `Controller._action_reboot`: a missing `reboot.type` is a 422 with no
backend call; otherwise `reboot` is called (the type is read but never
forwarded, a known gap the spec preserves), any backend exception
becomes 422, and success is 202 with an empty body. -/
def action_reboot (compute : ComputeApi) (body : Body) : ActionResult :=
  match getPath body "reboot" "type" with
  | some _ =>
      match compute "reboot" with
      | .ok _ => ⟨[("reboot", [])], .status 202⟩
      | .error _ => ⟨[("reboot", [])], .status 422⟩
  | none => ⟨[], .status 422⟩

/-- `ControllerV10._action_resize`: a missing `resize.flavorId` is a 422
with no backend call; otherwise `resize` is called with the literal
flavor id and with no surrounding handler, so a backend exception
propagates unhandled; success is 202. -/
def action_resize_v10 (compute : ComputeApi) (body : Body) : ActionResult :=
  match getPath body "resize" "flavorId" with
  | some flavor_id =>
      match compute "resize" with
      | .ok _ => ⟨[("resize", [flavor_id])], .status 202⟩
      | .error e => ⟨[("resize", [flavor_id])], .unhandled e⟩
  | none => ⟨[], .status 422⟩

/-- `ControllerV11._action_resize`: the whole body sits inside a blanket
`except Exception` that raises `HTTPBadRequest`.  A missing
`resize.flavorRef` raises `HTTPUnprocessableEntity` inside that block,
which the blanket handler immediately converts, so the caller sees 400;
a non-string `flavorRef` makes the href helper raise, also a 400; with a
string `flavorRef` the href is resolved to an id before `resize` is
called, a backend exception is a 400, and success is 202. -/
def action_resize_v11 (compute : ComputeApi) (body : Body) : ActionResult :=
  match getPath body "resize" "flavorRef" with
  | some (.str flavor_ref) =>
      match compute "resize" with
      | .ok _ =>
          ⟨[("resize", [.str (get_id_from_href flavor_ref)])], .status 202⟩
      | .error _ =>
          ⟨[("resize", [.str (get_id_from_href flavor_ref)])], .status 400⟩
  | some _ => ⟨[], .status 400⟩
  | none => ⟨[], .status 400⟩

/-- `Controller._action_confirm_resize`: any backend exception is a 400;
success returns `HTTPNoContent` (204). -/
def action_confirm_resize (compute : ComputeApi) (_body : Body) :
    ActionResult :=
  match compute "confirm_resize" with
  | .ok _ => ⟨[("confirm_resize", [])], .status 204⟩
  | .error _ => ⟨[("confirm_resize", [])], .status 400⟩

/-- `Controller._action_revert_resize`: any backend exception is a 400;
success is 202. -/
def action_revert_resize (compute : ComputeApi) (_body : Body) :
    ActionResult :=
  match compute "revert_resize" with
  | .ok _ => ⟨[("revert_resize", [])], .status 202⟩
  | .error _ => ⟨[("revert_resize", [])], .status 400⟩

/-- `Controller._action_migrate`: calls `resize` with no target flavor;
any backend exception is a 400; success is 202. -/
def action_migrate (compute : ComputeApi) (_body : Body) : ActionResult :=
  match compute "resize" with
  | .ok _ => ⟨[("resize", [])], .status 202⟩
  | .error _ => ⟨[("resize", [])], .status 400⟩

/-- `ControllerV10._action_rebuild`: a missing `rebuild.imageId` is a 400
with no backend call; otherwise `rebuild` is called, `BuildInProgress`
becomes 409, any other backend exception propagates unhandled, and
success is 202. -/
def action_rebuild_v10 (compute : ComputeApi) (body : Body) : ActionResult :=
  match getPath body "rebuild" "imageId" with
  | some image_id =>
      match compute "rebuild" with
      | .ok _ => ⟨[("rebuild", [image_id])], .status 202⟩
      | .error e =>
          if e = .buildInProgress then ⟨[("rebuild", [image_id])], .status 409⟩
          else ⟨[("rebuild", [image_id])], .unhandled e⟩
  | none => ⟨[], .status 400⟩

/-- `ControllerV11._decode_personalities` on one entry: the entry must be
a mapping carrying `path` and `contents`, and `contents` must Base64
decode; any failure is the 400 path. -/
def decode_personality (b64decode : String → Option String) (p : JVal) :
    Option (JVal × String) :=
  match p with
  | .obj l =>
      match jlookup l "path", jlookup l "contents" with
      | some path, some (.str contents) =>
          (b64decode contents).map (fun raw => (path, raw))
      | _, _ => none
  | _ => none

/-- `ControllerV11._decode_personalities` over the personality list. -/
def decode_personalities (b64decode : String → Option String) :
    List JVal → Option (List (JVal × String))
  | [] => some []
  | p :: rest =>
      match decode_personality b64decode p with
      | some d => (decode_personalities b64decode rest).map (fun ds => d :: ds)
      | none => none

/-- `ControllerV11._validate_metadata`: a truthy metadata value that is
not a mapping has no `iteritems`, which is the 400 path. -/
def validate_metadata_ok (metadata : Option JVal) : Bool :=
  match metadata with
  | some m =>
      if jtruthy m then
        match m with
        | .obj _ => true
        | _ => false
      else true
  | none => true

/-- `ControllerV11._action_rebuild`: a missing `rebuild.imageRef` is a
400; malformed metadata is a 400; a personality entry that fails to
parse or decode is a 400 (iterating a non-list personality value is
collapsed to that failure path); then `rebuild` is called,
`BuildInProgress` becomes 409, any other backend exception propagates
unhandled, and success is 202. -/
def action_rebuild_v11 (b64decode : String → Option String)
    (compute : ComputeApi) (body : Body) : ActionResult :=
  match getPath body "rebuild" "imageRef" with
  | none => ⟨[], .status 400⟩
  | some image_href =>
      let personalities : Option (List JVal) :=
        match getPath body "rebuild" "personality" with
        | some (.arr l) => some l
        | none => some []
        | some _ => none
      if validate_metadata_ok (getPath body "rebuild" "metadata") = false then
        ⟨[], .status 400⟩
      else
        match personalities with
        | none => ⟨[], .status 400⟩
        | some ps =>
            match decode_personalities b64decode ps with
            | none => ⟨[], .status 400⟩
            | some _ =>
                match compute "rebuild" with
                | .ok _ => ⟨[("rebuild", [image_href])], .status 202⟩
                | .error e =>
                    if e = .buildInProgress then
                      ⟨[("rebuild", [image_href])], .status 409⟩
                    else ⟨[("rebuild", [image_href])], .unhandled e⟩

/-! ## Action dispatcher -/

/-- The keys of the `actions` table in `Controller.action`. -/
def action_table : List String :=
  ["changePassword", "reboot", "resize", "confirmResize", "revertResize",
   "rebuild", "migrate"]

/-- `key in body` on the top-level action body. -/
def body_hasKey (body : Body) (k : String) : Bool :=
  (jlookup body k).isSome

/-- The handler the `actions` table maps a key to, for one protocol
generation (`resize`, `rebuild` and `changePassword` are
version-specific). -/
def dispatch (ver : Version) (b64decode : String → Option String)
    (compute : ComputeApi) (key : String) (body : Body) : ActionResult :=
  if key = "changePassword" then
    match ver with
    | .v10 => action_change_password_v10 compute body
    | .v11 => action_change_password_v11 compute body
  else if key = "reboot" then action_reboot compute body
  else if key = "resize" then
    match ver with
    | .v10 => action_resize_v10 compute body
    | .v11 => action_resize_v11 compute body
  else if key = "confirmResize" then action_confirm_resize compute body
  else if key = "revertResize" then action_revert_resize compute body
  else if key = "rebuild" then
    match ver with
    | .v10 => action_rebuild_v10 compute body
    | .v11 => action_rebuild_v11 b64decode compute body
  else if key = "migrate" then action_migrate compute body
  else ⟨[], .status 501⟩

/-- `Controller.action`: scan the action table, return the result of the
handler of the first key present in the body, and raise
`HTTPNotImplemented` (501) when no key matches. -/
def Controller_action (ver : Version) (b64decode : String → Option String)
    (compute : ComputeApi) (body : Body) : ActionResult :=
  match action_table.find? (fun k => body_hasKey body k) with
  | some k => dispatch ver b64decode compute k body
  | none => ⟨[], .status 501⟩

/-! ## Admin-only lifecycle handlers -/

/-- The shared shape of the eleven admin lifecycle handlers (`lock`,
`unlock`, `get_lock`, `reset_network`, `inject_network_info`, `pause`,
`unpause`, `suspend`, `resume`, `rescue`, `unrescue`): one backend call
inside a bare `except:` clause, so every exception (a `NotFound`
included) becomes 422, and success is 202 with an empty body. -/
def admin_action (op : String) (compute : ComputeApi) : ActionResult :=
  match compute op with
  | .ok _ => ⟨[(op, [])], .status 202⟩
  | .error _ => ⟨[(op, [])], .status 422⟩

/-- `Controller.lock`. -/
def Controller_lock : ComputeApi → ActionResult := admin_action "lock"

/-- `Controller.unlock`. -/
def Controller_unlock : ComputeApi → ActionResult := admin_action "unlock"

/-- `Controller.get_lock`. -/
def Controller_get_lock : ComputeApi → ActionResult := admin_action "get_lock"

/-- `Controller.reset_network`. -/
def Controller_reset_network : ComputeApi → ActionResult :=
  admin_action "reset_network"

/-- `Controller.inject_network_info`. -/
def Controller_inject_network_info : ComputeApi → ActionResult :=
  admin_action "inject_network_info"

/-- `Controller.pause`. -/
def Controller_pause : ComputeApi → ActionResult := admin_action "pause"

/-- `Controller.unpause`. -/
def Controller_unpause : ComputeApi → ActionResult := admin_action "unpause"

/-- `Controller.suspend`. -/
def Controller_suspend : ComputeApi → ActionResult := admin_action "suspend"

/-- `Controller.resume`. -/
def Controller_resume : ComputeApi → ActionResult := admin_action "resume"

/-- `Controller.rescue`. -/
def Controller_rescue : ComputeApi → ActionResult := admin_action "rescue"

/-- `Controller.unrescue`. -/
def Controller_unrescue : ComputeApi → ActionResult := admin_action "unrescue"

/-- The shared shape of `Controller.get_ajax_console` and
`Controller.get_vnc_console`: the instance id goes through `int()` (a
non-numeric id raises `ValueError`, which is not caught), then the one
backend call sits in a `try` that catches only `NotFound` (mapped to
404); any other backend exception propagates unhandled; success is
202. -/
def console_action (op : String) (id : String) (compute : ComputeApi) :
    ActionResult :=
  match pyInt id with
  | none => ⟨[], .unhandled .valueError⟩
  | some _ =>
      match compute op with
      | .ok _ => ⟨[(op, [])], .status 202⟩
      | .error e =>
          if e = .notFound then ⟨[(op, [])], .status 404⟩
          else ⟨[(op, [])], .unhandled e⟩

/-- `Controller.get_ajax_console`. -/
def Controller_get_ajax_console : String → ComputeApi → ActionResult :=
  console_action "get_ajax_console"

/-- `Controller.get_vnc_console`. -/
def Controller_get_vnc_console : String → ComputeApi → ActionResult :=
  console_action "get_vnc_console"

/-- The eleven bare-except admin lifecycle operations. -/
def bare_admin_ops : List String :=
  ["lock", "unlock", "get_lock", "reset_network", "inject_network_info",
   "pause", "unpause", "suspend", "resume", "rescue", "unrescue"]

/-- The two console operations. -/
def console_ops : List String := ["get_ajax_console", "get_vnc_console"]

/-! ## Delete (both versions) -/

/-- `ControllerV10.delete`: backend `delete`, `NotFound` mapped to 404,
other exceptions propagate, success returns a 202 response. -/
def ControllerV10_delete (compute_delete : Except Exc Unit) : Outcome :=
  match compute_delete with
  | .ok _ => .status 202
  | .error e => if e = .notFound then .status 404 else .unhandled e

/-- `HeadersSerializer.delete`: the response post-processing step of the
current protocol forces status 204 on the delete response, whatever the
controller produced for the body. -/
def HeadersSerializer_delete (_status : Nat) : Nat := 204

/-- `ControllerV11.delete` composed with the response serializer: the
controller method returns nothing on success (an empty body) and the
headers serializer forces 204; `NotFound` is mapped to 404 and other
exceptions propagate. -/
def ControllerV11_delete (compute_delete : Except Exc Unit) : Outcome :=
  match compute_delete with
  | .ok _ => .status (HeadersSerializer_delete 200)
  | .error e => if e = .notFound then .status 404 else .unhandled e

/-! ## Update -/

/-- Modelled from the spec: `CreateInstanceHelper._validate_server_name`
lives in `nova/api/openstack/create_instance_helper.py`, not under
`src/`.  The spec does not pin its rules beyond the update body shape,
so the model rejects only a non-string or blank name with a 400-mapped
webob error. -/
def validate_server_name (name : JVal) : Except Exc Unit :=
  match name with
  | .str s => if (trimChars s.data).isEmpty then .error (.httpExc 400) else .ok ()
  | _ => .error (.httpExc 400)

/-- `Controller.update` (with the version-specific `_parse_update`): an
empty body is a 422; a non-empty body is indexed with `body["server"]`
unconditionally, so a body without that key raises an unhandled
`KeyError`; then the optional name is validated, the legacy
`_parse_update` forwards an `adminPass` to `set_admin_password` with no
surrounding handler, and the backend `update` call maps `NotFound` to
404 and success to `HTTPNoContent` (204). -/
def Controller_update (ver : Version) (compute : ComputeApi) (body : Body) :
    Outcome :=
  if body.isEmpty then .status 422
  else
    match jlookup body "server" with
    | none => .unhandled (.keyError "server")
    | some server =>
        let nameStep : Except Exc Unit :=
          match server.getKey "name" with
          | some name => validate_server_name name
          | none => .ok ()
        match nameStep with
        | .error (.httpExc c) => .status c
        | .error e => .unhandled e
        | .ok _ =>
            let parseStep : Except Exc Unit :=
              match ver with
              | .v10 =>
                  match server.getKey "adminPass" with
                  | some _ =>
                      match compute "set_admin_password" with
                      | .ok _ => .ok ()
                      | .error e => .error e
                  | none => .ok ()
              | .v11 => .ok ()
            match parseStep with
            | .error e => .unhandled e
            | .ok _ =>
                match compute "update" with
                | .ok _ => .status 204
                | .error e =>
                    if e = .notFound then .status 404 else .unhandled e

/-! ## Derived notions used to state the claims -/

/-- Erase the three privileged options from a search-options dictionary
(what the disabled-admin-API branch of the sanitizer does). -/
def stripOpts (m : SearchOpts) : SearchOpts :=
  optErase (optErase (optErase m "ip") "ip6") "instance_name"

/-- Erase the three privileged options from a raw query: the same query
with no privileged option appearing. -/
def stripPrivileged (q : Query) : Query :=
  queryErase (queryErase (queryErase q "ip") "ip6") "instance_name"

/-- Whether an `Except` result is a success. -/
def exceptOk {ε α : Type} : Except ε α → Bool
  | .ok _ => true
  | .error _ => false

/-- The option sanitizer accepts this request (no `AdminRequired`). -/
def sanitize_ok (flags : Flags) (ctx : Ctx) (query : Query) : Bool :=
  exceptOk (check_admin_search_options flags ctx (queryToOpts query) admin_api)

/-- The `flavor` coercion of the listing pipeline succeeds on this query
(no `flavor` option, or a numeric one). -/
def flavor_coercion_ok (query : Query) : Bool :=
  match queryLookup query "flavor" with
  | none => true
  | some v => (pyInt v).isSome

/-! ## Concrete inputs for witnesses and counterexamples -/

/-- A backend oracle on which every operation succeeds. -/
def compute_ok : ComputeApi := fun _ => .ok ()

/-- A backend oracle on which every operation raises an unclassified
backend exception. -/
def compute_boom : ComputeApi := fun _ => .error (.backend "boom")

/-- A trivial Base64 decoder stand-in for concrete inputs. -/
def b64_id : String → Option String := fun s => some s

/-- A backend listing call that succeeds on every argument. -/
def get_all_ok : SearchOpts → Except Exc Unit := fun _ => .ok ()

/-- A configuration with the admin API enabled. -/
def flags_on : Flags := ⟨true⟩

/-- A configuration with the admin API disabled. -/
def flags_off : Flags := ⟨false⟩

/-- An administrative caller context. -/
def ctx_admin : Ctx := ⟨true⟩

/-- A non-administrative caller context. -/
def ctx_user : Ctx := ⟨false⟩

/-- An action body carrying two recognized action keys. -/
def body_two_actions : Body :=
  [("reboot", .obj [("type", .str "HARD")]), ("migrate", .obj [])]

/-! ## Dictionary lemmas -/

theorem optLookup_optErase_self (m : SearchOpts) (k : String) :
    optLookup (optErase m k) k = none := by
  induction m with
  | nil => rfl
  | cons kv t ih =>
      obtain ⟨a, b⟩ := kv
      by_cases h : a = k <;> simp [optErase, optLookup, h, ih]

theorem optLookup_optErase_ne (m : SearchOpts) (k key : String)
    (h : k ≠ key) : optLookup (optErase m key) k = optLookup m k := by
  induction m with
  | nil => rfl
  | cons kv t ih =>
      obtain ⟨a, b⟩ := kv
      by_cases ha : a = key
      · subst ha
        simp [optErase, optLookup, Ne.symm h, ih]
      · by_cases hk : a = k
        · subst hk
          simp [optErase, optLookup, ha]
        · simp [optErase, optLookup, ha, hk, ih]

theorem optLookup_optErase_none (m : SearchOpts) (k key : String)
    (h : optLookup m k = none) : optLookup (optErase m key) k = none := by
  by_cases hk : k = key
  · subst hk; exact optLookup_optErase_self m k
  · rw [optLookup_optErase_ne m k key hk]; exact h

theorem optLookup_append_of_none (l1 l2 : SearchOpts) (k : String)
    (h : optLookup l1 k = none) :
    optLookup (l1 ++ l2) k = optLookup l2 k := by
  induction l1 with
  | nil => rfl
  | cons kv t ih =>
      obtain ⟨a, b⟩ := kv
      by_cases ha : a = k
      · simp [optLookup, ha] at h
      · simp [optLookup, ha] at h ⊢
        exact ih h

theorem optLookup_append_of_some (l1 l2 : SearchOpts) (k : String)
    (v : OptVal) (h : optLookup l1 k = some v) :
    optLookup (l1 ++ l2) k = some v := by
  induction l1 with
  | nil => simp [optLookup] at h
  | cons kv t ih =>
      obtain ⟨a, b⟩ := kv
      by_cases ha : a = k
      · simp [optLookup, ha] at h ⊢
        exact h
      · simp [optLookup, ha] at h ⊢
        exact ih h

theorem optLookup_optInsert_self (m : SearchOpts) (k : String) (v : OptVal) :
    optLookup (optInsert m k v) k = some v := by
  unfold optInsert
  rw [optLookup_append_of_none _ _ _ (optLookup_optErase_self m k)]
  simp [optLookup]

theorem optLookup_optInsert_ne (m : SearchOpts) (k key : String) (v : OptVal)
    (h : k ≠ key) : optLookup (optInsert m key v) k = optLookup m k := by
  unfold optInsert
  cases hc : optLookup (optErase m key) k with
  | some w =>
      rw [optLookup_append_of_some _ _ _ _ hc]
      rw [optLookup_optErase_ne m k key h] at hc
      exact hc.symm
  | none =>
      rw [optLookup_append_of_none _ _ _ hc]
      rw [optLookup_optErase_ne m k key h] at hc
      simp [optLookup, Ne.symm h, hc]

theorem optLookup_queryToOpts (q : Query) (k : String) :
    optLookup (queryToOpts q) k = (queryLookup q k).map OptVal.str := by
  induction q with
  | nil => rfl
  | cons kv t ih =>
      obtain ⟨a, b⟩ := kv
      by_cases ha : a = k
      · simp [queryToOpts, optLookup, queryLookup, ha]
      · simp only [queryToOpts, List.map_cons, optLookup, queryLookup, ha,
          if_neg ha]
        exact ih

theorem queryToOpts_map_fst (q : Query) :
    (queryToOpts q).map Prod.fst = q.map Prod.fst := by
  induction q with
  | nil => rfl
  | cons kv t ih =>
      simp only [queryToOpts, List.map_cons] at ih ⊢
      rw [ih]

theorem queryToOpts_queryErase (q : Query) (k : String) :
    queryToOpts (queryErase q k) = optErase (queryToOpts q) k := by
  induction q with
  | nil => rfl
  | cons kv t ih =>
      obtain ⟨a, b⟩ := kv
      by_cases ha : a = k
      · simp only [queryErase, queryToOpts, List.map_cons, optErase, if_pos ha]
        exact ih
      · simp only [queryErase, queryToOpts, List.map_cons, optErase, if_neg ha]
        rw [← queryToOpts, ← queryToOpts, ih]

theorem stripOpts_cons (a : String) (b : OptVal) (t : SearchOpts) :
    stripOpts ((a, b) :: t)
      = if a = "ip" ∨ a = "ip6" ∨ a = "instance_name" then stripOpts t
        else (a, b) :: stripOpts t := by
  unfold stripOpts
  by_cases h1 : a = "ip" <;> by_cases h2 : a = "ip6" <;>
    by_cases h3 : a = "instance_name" <;>
    simp [optErase, h1, h2, h3]

theorem stripOpts_idem (m : SearchOpts) :
    stripOpts (stripOpts m) = stripOpts m := by
  induction m with
  | nil => rfl
  | cons kv t ih =>
      obtain ⟨a, b⟩ := kv
      by_cases h : a = "ip" ∨ a = "ip6" ∨ a = "instance_name" <;>
        simp [stripOpts_cons, h, ih]

theorem stripOpts_lookup_priv (m : SearchOpts) (k : String)
    (hk : k = "ip" ∨ k = "ip6" ∨ k = "instance_name") :
    optLookup (stripOpts m) k = none := by
  unfold stripOpts
  rcases hk with h | h | h <;> subst h
  · rw [optLookup_optErase_ne _ _ _ (by decide),
      optLookup_optErase_ne _ _ _ (by decide)]
    exact optLookup_optErase_self m "ip"
  · rw [optLookup_optErase_ne _ _ _ (by decide)]
    exact optLookup_optErase_self _ "ip6"
  · exact optLookup_optErase_self _ "instance_name"

theorem stripOpts_lookup_ne (m : SearchOpts) (k : String)
    (h1 : k ≠ "ip") (h2 : k ≠ "ip6") (h3 : k ≠ "instance_name") :
    optLookup (stripOpts m) k = optLookup m k := by
  unfold stripOpts
  rw [optLookup_optErase_ne _ _ _ h3, optLookup_optErase_ne _ _ _ h2,
    optLookup_optErase_ne _ _ _ h1]

/-! ## Sanitizer characterization -/

theorem check_disabled (flags : Flags) (ctx : Ctx) (m : SearchOpts)
    (h : flags.allow_admin_api = false) :
    check_admin_search_options flags ctx m admin_api = .ok (stripOpts m) := by
  unfold check_admin_search_options
  rw [if_pos h]
  simp [admin_api, stripOpts]

theorem check_admin_ctx (flags : Flags) (ctx : Ctx) (m : SearchOpts)
    (h1 : flags.allow_admin_api = true) (h2 : ctx.is_admin = true) :
    check_admin_search_options flags ctx m admin_api = .ok m := by
  unfold check_admin_search_options
  simp [h1, h2]

theorem check_nonadmin_privileged (flags : Flags) (ctx : Ctx) (m : SearchOpts)
    (h1 : flags.allow_admin_api = true) (h2 : ctx.is_admin = false)
    (h3 : ((m.map Prod.fst).filter
        (fun o => admin_api.contains o)).isEmpty = false) :
    check_admin_search_options flags ctx m admin_api = .error .adminRequired := by
  unfold check_admin_search_options
  have hc1 : ¬ (flags.allow_admin_api = false) := by simp [h1]
  rw [if_neg hc1, h2]
  simp only [h3, Bool.false_eq_true, if_false]

theorem check_ok_cases (flags : Flags) (ctx : Ctx) (m m' : SearchOpts)
    (h : check_admin_search_options flags ctx m admin_api = .ok m') :
    m' = stripOpts m ∨ m' = m := by
  by_cases ha : flags.allow_admin_api = false
  · rw [check_disabled flags ctx m ha] at h
    left
    injection h with h
    exact h.symm
  · have ha' : flags.allow_admin_api = true := by
      revert ha; cases flags.allow_admin_api <;> simp
    by_cases hb : ctx.is_admin = true
    · rw [check_admin_ctx flags ctx m ha' hb] at h
      right
      injection h with h
      exact h.symm
    · unfold check_admin_search_options at h
      rw [if_neg ha] at h
      have hb' : ctx.is_admin = false := by
        revert hb; cases ctx.is_admin <;> simp
      rw [hb'] at h
      simp only [Bool.false_eq_true, if_false] at h
      split at h
      · right
        injection h with h
        exact h.symm
      · cases h

theorem check_ok_lookup (flags : Flags) (ctx : Ctx) (m m' : SearchOpts)
    (h : check_admin_search_options flags ctx m admin_api = .ok m')
    (k : String) (h1 : k ≠ "ip") (h2 : k ≠ "ip6") (h3 : k ≠ "instance_name") :
    optLookup m' k = optLookup m k := by
  rcases check_ok_cases flags ctx m m' h with hc | hc <;> subst hc
  · exact stripOpts_lookup_ne m k h1 h2 h3
  · rfl

/-! ## Listing pipeline characterization -/

theorem servers_search_opts_lookup_none (so : SearchOpts) (k : String)
    (hk : k ≠ "state") (h0 : optLookup so k = none) (m : SearchOpts)
    (hm : servers_search_opts so = .ok m) : optLookup m k = none := by
  simp only [servers_search_opts] at hm
  cases hst : optLookup so "status" with
  | none =>
      rw [hst] at hm
      simp only [Except.ok.injEq] at hm
      subst hm
      exact optLookup_optErase_none _ _ _
        (optLookup_optErase_none _ _ _ (optLookup_optErase_none _ _ _ h0))
  | some v =>
      rw [hst] at hm
      simp only [] at hm
      split at hm
      · cases hm
      · simp only [Except.ok.injEq] at hm
        subst hm
        have l1 : optLookup (optErase so "status") k = none :=
          optLookup_optErase_none _ _ _ h0
        have l2 : optLookup (optInsert (optErase so "status") "state"
            (.states (states_from_status v.asStr))) k = none := by
          rw [optLookup_optInsert_ne _ _ _ _ hk]
          exact l1
        exact optLookup_optErase_none _ _ _ (optLookup_optErase_none _ _ _ l2)

theorem servers_search_opts_status_some (so : SearchOpts) (s : String)
    (h : optLookup so "status" = some (.str s))
    (hne : states_from_status s ≠ []) :
    servers_search_opts so
      = .ok (optErase (optErase (optInsert (optErase so "status") "state"
          (.states (states_from_status s))) "changes-since") "fresh") := by
  simp only [servers_search_opts, h, OptVal.asStr]
  rw [if_neg (fun hh => hne (List.length_eq_zero.mp hh))]

theorem servers_search_opts_status_err (so : SearchOpts) (s : String)
    (h : optLookup so "status" = some (.str s))
    (he : states_from_status s = []) :
    servers_search_opts so
      = .error (.invalidInput ("Invalid server status: " ++ s)) := by
  simp only [servers_search_opts, h, OptVal.asStr]
  rw [if_pos (by simp [he])]

theorem after_admin_check_lookup_none (so : SearchOpts) (k : String)
    (hk1 : k ≠ "recurse_zones") (hk2 : k ≠ "flavor") (hk3 : k ≠ "state")
    (h0 : optLookup so k = none) (m : SearchOpts)
    (hm : after_admin_check so = .ok m) : optLookup m k = none := by
  have h1 : optLookup (optInsert so "recurse_zones"
      (.bool (bool_from_str (optLookup so "recurse_zones")))) k = none := by
    rw [optLookup_optInsert_ne _ _ _ _ hk1]
    exact h0
  simp only [after_admin_check] at hm
  cases hfl : optLookup (optInsert so "recurse_zones"
      (.bool (bool_from_str (optLookup so "recurse_zones")))) "flavor" with
  | none =>
      rw [hfl] at hm
      exact servers_search_opts_lookup_none _ k hk3 h1 m hm
  | some v =>
      rw [hfl] at hm
      simp only [] at hm
      cases hpi : pyInt v.asStr with
      | none => rw [hpi] at hm; cases hm
      | some n =>
          rw [hpi] at hm
          have h2 : optLookup (optInsert (optInsert so "recurse_zones"
              (.bool (bool_from_str (optLookup so "recurse_zones"))))
              "flavor" (.int n)) k = none := by
            rw [optLookup_optInsert_ne _ _ _ _ hk2]
            exact h1
          exact servers_search_opts_lookup_none _ k hk3 h2 m hm

/-! ## Claim theorems -/

/-- C1: with the admin API enabled and a non-admin caller, a listing
query containing at least one privileged option fails the presence check
on the unmutated query-built dictionary (the check runs before every
coercion), is answered 403 via `AdminRequired` mapped to
`HTTPForbidden`, and the backend `get_all` is never invoked. -/
theorem admin_options_nonadmin_forbidden (flags : Flags) (ctx : Ctx)
    (query : Query) (get_all : SearchOpts → Except Exc Unit)
    (h1 : flags.allow_admin_api = true) (h2 : ctx.is_admin = false)
    (h3 : ((query.map Prod.fst).filter
        (fun o => admin_api.contains o)).isEmpty = false) :
    check_admin_search_options flags ctx (queryToOpts query) admin_api
        = .error .adminRequired
    ∧ servers_from_request_core flags ctx query = .error (.httpExc 403)
    ∧ get_all_arg flags ctx query = none
    ∧ Controller_index flags ctx query get_all = .status 403 := by
  have hmap : (((queryToOpts query).map Prod.fst).filter
      (fun o => admin_api.contains o)).isEmpty = false := by
    rw [queryToOpts_map_fst]
    exact h3
  have hcheck := check_nonadmin_privileged flags ctx (queryToOpts query)
    h1 h2 hmap
  refine ⟨hcheck, ?_, ?_, ?_⟩
  · simp only [servers_from_request_core, hcheck]
  · simp only [get_all_arg, servers_from_request_core, hcheck]
  · simp only [Controller_index, servers_from_request_core, hcheck,
      listingExcOutcome]

/-- Witness for C1 at a concrete request: admin API enabled, non-admin
caller, query `ip=10.0.0.1`. -/
theorem admin_options_nonadmin_forbidden_witness :
    servers_from_request_core flags_on ctx_user [("ip", "10.0.0.1")]
        = .error (.httpExc 403)
    ∧ get_all_arg flags_on ctx_user [("ip", "10.0.0.1")] = none
    ∧ Controller_index flags_on ctx_user [("ip", "10.0.0.1")] get_all_ok
        = .status 403 :=
  (admin_options_nonadmin_forbidden flags_on ctx_user [("ip", "10.0.0.1")]
    get_all_ok rfl rfl (by decide)).2

/-- C2: with the admin API disabled, the sanitizer never raises, the
whole listing pipeline (hence the dictionary handed to `get_all`) is
identical whether or not the privileged options appeared in the query,
and no privileged option survives into any dictionary that reaches
`get_all`, for admin and non-admin callers alike. -/
theorem disabled_admin_api_strips_privileged (flags : Flags) (ctx : Ctx)
    (query : Query) (h : flags.allow_admin_api = false) :
    (∃ m, check_admin_search_options flags ctx (queryToOpts query) admin_api
        = .ok m)
    ∧ servers_from_request_core flags ctx query
        = servers_from_request_core flags ctx (stripPrivileged query)
    ∧ (∀ m, servers_from_request_core flags ctx query = .ok m →
        ∀ k, k = "ip" ∨ k = "ip6" ∨ k = "instance_name" →
          optLookup m k = none) := by
  have hc1 := check_disabled flags ctx (queryToOpts query) h
  have hc2 := check_disabled flags ctx (queryToOpts (stripPrivileged query)) h
  have hstrip : queryToOpts (stripPrivileged query)
      = stripOpts (queryToOpts query) := by
    unfold stripPrivileged stripOpts
    rw [queryToOpts_queryErase, queryToOpts_queryErase, queryToOpts_queryErase]
  rw [hstrip, stripOpts_idem] at hc2
  refine ⟨⟨_, hc1⟩, ?_, ?_⟩
  · simp only [servers_from_request_core, hstrip, hc1, hc2]
  · intro m hm k hk
    simp only [servers_from_request_core, hc1] at hm
    have h0 := stripOpts_lookup_priv (queryToOpts query) k hk
    rcases hk with hkk | hkk | hkk <;> subst hkk <;>
      exact after_admin_check_lookup_none _ _ (by decide) (by decide)
        (by decide) h0 m hm

/-- Witness for C2 at a concrete request: admin API disabled, admin
caller, query `ip=10.0.0.1&status=ACTIVE`. -/
theorem disabled_admin_api_strips_privileged_witness :
    servers_from_request_core flags_off ctx_admin
        [("ip", "10.0.0.1"), ("status", "ACTIVE")]
      = servers_from_request_core flags_off ctx_admin
          (stripPrivileged [("ip", "10.0.0.1"), ("status", "ACTIVE")]) :=
  (disabled_admin_api_strips_privileged flags_off ctx_admin
    [("ip", "10.0.0.1"), ("status", "ACTIVE")] rfl).2.1

/-- Helper for the status claim: once the pipeline is known to reduce to
`_servers_search` on a dictionary whose `status` is `s`, the two status
outcomes follow. -/
theorem listing_status_conclusion (flags : Flags) (ctx : Ctx) (query : Query)
    (get_all : SearchOpts → Except Exc Unit) (so : SearchOpts) (s : String)
    (hcore : servers_from_request_core flags ctx query
        = servers_search_opts so)
    (hst : optLookup so "status" = some (.str s)) :
    (states_from_status s ≠ [] →
      ∃ m, servers_from_request_core flags ctx query = .ok m
        ∧ get_all_arg flags ctx query = some m
        ∧ optLookup m "state" = some (.states (states_from_status s))
        ∧ optLookup m "status" = none)
    ∧ (states_from_status s = [] →
      servers_from_request_core flags ctx query
          = .error (.invalidInput ("Invalid server status: " ++ s))
        ∧ get_all_arg flags ctx query = none
        ∧ Controller_index flags ctx query get_all = .status 400) := by
  constructor
  · intro hne
    have hss := servers_search_opts_status_some so s hst hne
    refine ⟨_, by rw [hcore, hss], ?_, ?_, ?_⟩
    · simp only [get_all_arg, hcore, hss]
    · rw [optLookup_optErase_ne _ _ _ (by decide),
        optLookup_optErase_ne _ _ _ (by decide)]
      exact optLookup_optInsert_self _ _ _
    · apply optLookup_optErase_none
      apply optLookup_optErase_none
      rw [optLookup_optInsert_ne _ _ _ _ (by decide)]
      exact optLookup_optErase_self _ _
  · intro he
    have hse := servers_search_opts_status_err so s hst he
    refine ⟨by rw [hcore, hse], ?_, ?_⟩
    · simp only [get_all_arg, hcore, hse]
    · simp only [Controller_index, hcore, hse, listingExcOutcome]

/-- C7: on a listing query carrying a `status` option (with the
sanitizer passing and the `flavor` coercion succeeding), the status is
translated through the fixed power-state table before the backend is
called: a status with at least one matching state is replaced by that
non-empty `state` set in the dictionary `get_all` receives (the `status`
key itself removed), and a status with zero matching states raises
`InvalidInput`, answered 400, with `get_all` never invoked. -/
theorem status_translated_before_backend (flags : Flags) (ctx : Ctx)
    (query : Query) (s : String) (get_all : SearchOpts → Except Exc Unit)
    (hs : queryLookup query "status" = some s)
    (hsan : sanitize_ok flags ctx query = true)
    (hfl : flavor_coercion_ok query = true) :
    (states_from_status s ≠ [] →
      ∃ m, servers_from_request_core flags ctx query = .ok m
        ∧ get_all_arg flags ctx query = some m
        ∧ optLookup m "state" = some (.states (states_from_status s))
        ∧ optLookup m "status" = none)
    ∧ (states_from_status s = [] →
      servers_from_request_core flags ctx query
          = .error (.invalidInput ("Invalid server status: " ++ s))
        ∧ get_all_arg flags ctx query = none
        ∧ Controller_index flags ctx query get_all = .status 400) := by
  unfold sanitize_ok at hsan
  cases hck : check_admin_search_options flags ctx (queryToOpts query)
      admin_api with
  | error e => rw [hck] at hsan; cases hsan
  | ok m' =>
      have hst' : optLookup m' "status" = some (.str s) := by
        rw [check_ok_lookup flags ctx _ m' hck "status" (by decide) (by decide)
          (by decide), optLookup_queryToOpts, hs]
        rfl
      have hfl' : optLookup m' "flavor"
          = (queryLookup query "flavor").map OptVal.str := by
        rw [check_ok_lookup flags ctx _ m' hck "flavor" (by decide) (by decide)
          (by decide), optLookup_queryToOpts]
      have hst1 : optLookup (optInsert m' "recurse_zones"
          (.bool (bool_from_str (optLookup m' "recurse_zones")))) "status"
          = some (.str s) := by
        rw [optLookup_optInsert_ne _ _ _ _ (by decide)]
        exact hst'
      have hfl1 : optLookup (optInsert m' "recurse_zones"
          (.bool (bool_from_str (optLookup m' "recurse_zones")))) "flavor"
          = (queryLookup query "flavor").map OptVal.str := by
        rw [optLookup_optInsert_ne _ _ _ _ (by decide)]
        exact hfl'
      cases hq : queryLookup query "flavor" with
      | none =>
          have hn : optLookup (optInsert m' "recurse_zones"
              (.bool (bool_from_str (optLookup m' "recurse_zones")))) "flavor"
              = none := by rw [hfl1, hq]; rfl
          have hcore : servers_from_request_core flags ctx query
              = servers_search_opts (optInsert m' "recurse_zones"
                  (.bool (bool_from_str (optLookup m' "recurse_zones")))) := by
            simp only [servers_from_request_core, hck, after_admin_check, hn]
          exact listing_status_conclusion flags ctx query get_all _ s hcore hst1
      | some fv =>
          unfold flavor_coercion_ok at hfl
          rw [hq] at hfl
          change (pyInt fv).isSome = true at hfl
          cases hpi : pyInt fv with
          | none => rw [hpi] at hfl; cases hfl
          | some n =>
              have hsome : optLookup (optInsert m' "recurse_zones"
                  (.bool (bool_from_str (optLookup m' "recurse_zones"))))
                  "flavor" = some (.str fv) := by rw [hfl1, hq]; rfl
              have hcore : servers_from_request_core flags ctx query
                  = servers_search_opts (optInsert (optInsert m'
                      "recurse_zones" (.bool (bool_from_str
                        (optLookup m' "recurse_zones")))) "flavor"
                      (.int n)) := by
                simp only [servers_from_request_core, hck, after_admin_check,
                  hsome, OptVal.asStr, hpi]
              have hst2 : optLookup (optInsert (optInsert m' "recurse_zones"
                  (.bool (bool_from_str (optLookup m' "recurse_zones"))))
                  "flavor" (.int n)) "status" = some (.str s) := by
                rw [optLookup_optInsert_ne _ _ _ _ (by decide)]
                exact hst1
              exact listing_status_conclusion flags ctx query get_all _ s
                hcore hst2

/-- Witness for C7 at a concrete request: admin caller on an enabled
admin API, query `status=ACTIVE`. -/
theorem status_translated_before_backend_witness :
    (states_from_status "ACTIVE" ≠ [] →
      ∃ m, servers_from_request_core flags_on ctx_admin [("status", "ACTIVE")]
          = .ok m
        ∧ get_all_arg flags_on ctx_admin [("status", "ACTIVE")] = some m
        ∧ optLookup m "state" = some (.states (states_from_status "ACTIVE"))
        ∧ optLookup m "status" = none)
    ∧ (states_from_status "ACTIVE" = [] →
      servers_from_request_core flags_on ctx_admin [("status", "ACTIVE")]
          = .error (.invalidInput ("Invalid server status: " ++ "ACTIVE"))
        ∧ get_all_arg flags_on ctx_admin [("status", "ACTIVE")] = none
        ∧ Controller_index flags_on ctx_admin [("status", "ACTIVE")]
            get_all_ok = .status 400) :=
  status_translated_before_backend flags_on ctx_admin [("status", "ACTIVE")]
    "ACTIVE" get_all_ok rfl rfl rfl

/-- C9 (counterexample to the claim as stated): on the listing query
`flavor=abc` the `int()` coercion raises `ValueError`, which `index`
does not catch (it catches only `Invalid` and `NotFound`), so the
request is not answered 400: the exception propagates unhandled. -/
theorem flavor_nonnumeric_not_400 :
    Controller_index flags_on ctx_admin [("flavor", "abc")] get_all_ok
        = .unhandled .valueError
    ∧ Controller_index flags_on ctx_admin [("flavor", "abc")] get_all_ok
        ≠ .status 400 := by
  constructor
  · rfl
  · decide

/-- C9 (amended): whenever the sanitizer passes and the query carries a
non-numeric `flavor` value, the pipeline stops with an uncaught
`ValueError` before the backend listing call; the request is not mapped
to any HTTP status. -/
theorem flavor_coercion_failure_unhandled (flags : Flags) (ctx : Ctx)
    (query : Query) (v : String) (get_all : SearchOpts → Except Exc Unit)
    (hsan : sanitize_ok flags ctx query = true)
    (hq : queryLookup query "flavor" = some v)
    (hn : pyInt v = none) :
    servers_from_request_core flags ctx query = .error .valueError
    ∧ get_all_arg flags ctx query = none
    ∧ Controller_index flags ctx query get_all = .unhandled .valueError := by
  unfold sanitize_ok at hsan
  cases hck : check_admin_search_options flags ctx (queryToOpts query)
      admin_api with
  | error e => rw [hck] at hsan; cases hsan
  | ok m' =>
      have hfl' : optLookup m' "flavor"
          = (queryLookup query "flavor").map OptVal.str := by
        rw [check_ok_lookup flags ctx _ m' hck "flavor" (by decide) (by decide)
          (by decide), optLookup_queryToOpts]
      have hsome : optLookup (optInsert m' "recurse_zones"
          (.bool (bool_from_str (optLookup m' "recurse_zones")))) "flavor"
          = some (.str v) := by
        rw [optLookup_optInsert_ne _ _ _ _ (by decide), hfl', hq]
        rfl
      have hcore : servers_from_request_core flags ctx query
          = .error .valueError := by
        simp only [servers_from_request_core, hck, after_admin_check, hsome,
          OptVal.asStr, hn]
      exact ⟨hcore, by simp only [get_all_arg, hcore],
        by simp only [Controller_index, hcore, listingExcOutcome]⟩

/-- Witness for the amended C9 at a concrete request: query
`flavor=12x` with the sanitizer passing. -/
theorem flavor_coercion_failure_unhandled_witness :
    servers_from_request_core flags_on ctx_admin [("flavor", "12x")]
        = .error .valueError
    ∧ get_all_arg flags_on ctx_admin [("flavor", "12x")] = none
    ∧ Controller_index flags_on ctx_admin [("flavor", "12x")] get_all_ok
        = .unhandled .valueError :=
  flavor_coercion_failure_unhandled flags_on ctx_admin [("flavor", "12x")]
    "12x" get_all_ok rfl rfl (by decide)

/-- C3 (counterexample to the claim as stated): `get_vnc_console` with a
backend call raising an unclassified exception lets that exception
propagate unhandled; it is neither mapped to 422 nor to 404. -/
theorem vnc_console_backend_exception_propagates :
    Controller_get_vnc_console "1" compute_boom
        = ⟨[("get_vnc_console", [])], .unhandled (.backend "boom")⟩
    ∧ (Controller_get_vnc_console "1" compute_boom).outcome ≠ .status 422
    ∧ (Controller_get_vnc_console "1" compute_boom).outcome ≠ .status 404 :=
  ⟨rfl, by decide, by decide⟩

/-- C3 (amended): the eleven bare-except admin lifecycle handlers map
every backend exception, `NotFound` included, to 422 and return 202 with
an empty body on success; the two console handlers map `NotFound` to
404 and return 202 on success, but let any other backend exception
propagate unhandled. -/
theorem admin_lifecycle_error_mapping (compute : ComputeApi) (e : Exc)
    (he : e ≠ .notFound) (id : String) (n : Int)
    (hid : pyInt id = some n) :
    (∀ op, op ∈ bare_admin_ops →
      (compute op = .ok () →
        admin_action op compute = ⟨[(op, [])], .status 202⟩)
      ∧ (∀ e2, compute op = .error e2 →
        admin_action op compute = ⟨[(op, [])], .status 422⟩))
    ∧ (∀ op, op ∈ console_ops →
      (compute op = .ok () →
        console_action op id compute = ⟨[(op, [])], .status 202⟩)
      ∧ (compute op = .error .notFound →
        console_action op id compute = ⟨[(op, [])], .status 404⟩)
      ∧ (compute op = .error e →
        console_action op id compute = ⟨[(op, [])], .unhandled e⟩)) := by
  constructor
  · intro op _
    constructor
    · intro h
      unfold admin_action
      rw [h]
    · intro e2 h
      unfold admin_action
      rw [h]
  · intro op _
    refine ⟨?_, ?_, ?_⟩
    · intro h
      unfold console_action
      rw [hid, h]
    · intro h
      unfold console_action
      rw [hid, h]
      simp
    · intro h
      unfold console_action
      rw [hid, h]
      simp [he]

/-- Witness for the amended C3 at concrete inputs: a failing `lock` maps
to 422 and a successful `get_vnc_console` to 202. -/
theorem admin_lifecycle_error_mapping_witness :
    admin_action "lock" compute_boom = ⟨[("lock", [])], .status 422⟩
    ∧ console_action "get_vnc_console" "2" compute_ok
        = ⟨[("get_vnc_console", [])], .status 202⟩ :=
  ⟨((admin_lifecycle_error_mapping compute_boom (.backend "boom") (by decide)
      "2" 2 (by decide)).1 "lock" (by decide)).2 (.backend "boom") rfl,
   ((admin_lifecycle_error_mapping compute_ok (.backend "boom") (by decide)
      "2" 2 (by decide)).2 "get_vnc_console" (by decide)).1 rfl⟩

/-! ## Backend-call counting for the dispatcher -/

theorem action_change_password_v10_calls (compute : ComputeApi) (body : Body) :
    (action_change_password_v10 compute body).calls.length ≤ 1 := by
  simp [action_change_password_v10]

theorem action_change_password_v11_calls (compute : ComputeApi) (body : Body) :
    (action_change_password_v11 compute body).calls.length ≤ 1 := by
  unfold action_change_password_v11
  split
  · split
    · simp
    · cases compute "set_admin_password" <;> simp
  · simp
  · simp

theorem action_reboot_calls (compute : ComputeApi) (body : Body) :
    (action_reboot compute body).calls.length ≤ 1 := by
  unfold action_reboot
  cases getPath body "reboot" "type" with
  | none => simp
  | some v => cases compute "reboot" <;> simp

theorem action_resize_v10_calls (compute : ComputeApi) (body : Body) :
    (action_resize_v10 compute body).calls.length ≤ 1 := by
  unfold action_resize_v10
  cases getPath body "resize" "flavorId" with
  | none => simp
  | some v => cases compute "resize" <;> simp

theorem action_resize_v11_calls (compute : ComputeApi) (body : Body) :
    (action_resize_v11 compute body).calls.length ≤ 1 := by
  unfold action_resize_v11
  split
  · cases compute "resize" <;> simp
  · simp
  · simp

theorem action_confirm_resize_calls (compute : ComputeApi) (body : Body) :
    (action_confirm_resize compute body).calls.length ≤ 1 := by
  unfold action_confirm_resize
  cases compute "confirm_resize" <;> simp

theorem action_revert_resize_calls (compute : ComputeApi) (body : Body) :
    (action_revert_resize compute body).calls.length ≤ 1 := by
  unfold action_revert_resize
  cases compute "revert_resize" <;> simp

theorem action_migrate_calls (compute : ComputeApi) (body : Body) :
    (action_migrate compute body).calls.length ≤ 1 := by
  unfold action_migrate
  cases compute "resize" <;> simp

theorem action_rebuild_v10_calls (compute : ComputeApi) (body : Body) :
    (action_rebuild_v10 compute body).calls.length ≤ 1 := by
  unfold action_rebuild_v10
  cases getPath body "rebuild" "imageId" with
  | none => simp
  | some v =>
      cases compute "rebuild" with
      | ok u => simp
      | error e => by_cases hb : e = .buildInProgress <;> simp [hb]

theorem action_rebuild_v11_calls (b64decode : String → Option String)
    (compute : ComputeApi) (body : Body) :
    (action_rebuild_v11 b64decode compute body).calls.length ≤ 1 := by
  unfold action_rebuild_v11
  cases getPath body "rebuild" "imageRef" with
  | none => simp
  | some img =>
      simp only []
      by_cases hv : validate_metadata_ok (getPath body "rebuild" "metadata")
          = false
      · simp [hv]
      · rw [if_neg hv]
        cases hp : getPath body "rebuild" "personality" with
        | none =>
            cases hc : compute "rebuild" with
            | ok u => simp [decode_personalities, hc]
            | error e =>
                by_cases hb : e = .buildInProgress <;>
                  simp [decode_personalities, hc, hb]
        | some pv =>
            cases pv with
            | arr l =>
                cases hd : decode_personalities b64decode l with
                | none => simp [hd]
                | some ds =>
                    cases hc : compute "rebuild" with
                    | ok u => simp [hd, hc]
                    | error e =>
                        by_cases hb : e = .buildInProgress <;>
                          simp [hd, hc, hb]
            | str p => simp
            | num n => simp
            | bool b => simp
            | obj l => simp
            | null => simp

theorem dispatch_calls_le_one (ver : Version)
    (b64decode : String → Option String) (compute : ComputeApi) (k : String)
    (body : Body) : (dispatch ver b64decode compute k body).calls.length ≤ 1 := by
  unfold dispatch
  by_cases h1 : k = "changePassword"
  · rw [if_pos h1]
    cases ver with
    | v10 => exact action_change_password_v10_calls compute body
    | v11 => exact action_change_password_v11_calls compute body
  · rw [if_neg h1]
    by_cases h2 : k = "reboot"
    · rw [if_pos h2]
      exact action_reboot_calls compute body
    · rw [if_neg h2]
      by_cases h3 : k = "resize"
      · rw [if_pos h3]
        cases ver with
        | v10 => exact action_resize_v10_calls compute body
        | v11 => exact action_resize_v11_calls compute body
      · rw [if_neg h3]
        by_cases h4 : k = "confirmResize"
        · rw [if_pos h4]
          exact action_confirm_resize_calls compute body
        · rw [if_neg h4]
          by_cases h5 : k = "revertResize"
          · rw [if_pos h5]
            exact action_revert_resize_calls compute body
          · rw [if_neg h5]
            by_cases h6 : k = "rebuild"
            · rw [if_pos h6]
              cases ver with
              | v10 => exact action_rebuild_v10_calls compute body
              | v11 => exact action_rebuild_v11_calls b64decode compute body
            · rw [if_neg h6]
              by_cases h7 : k = "migrate"
              · rw [if_pos h7]
                exact action_migrate_calls compute body
              · rw [if_neg h7]
                simp

/-- C4: the action dispatcher invokes at most one handler: a body with
no recognized action key is answered 501 with no backend call; a body
with a recognized key (in particular two or more of them) dispatches to
exactly one handler of the table; and in every case at most one backend
operation is invoked. -/
theorem action_dispatch_at_most_one (ver : Version)
    (b64decode : String → Option String) (compute : ComputeApi)
    (body : Body) :
    ((∀ k, k ∈ action_table → body_hasKey body k = false) →
        Controller_action ver b64decode compute body = ⟨[], .status 501⟩)
    ∧ (∀ k, k ∈ action_table → body_hasKey body k = true →
        ∃ k2, k2 ∈ action_table ∧ body_hasKey body k2 = true
          ∧ Controller_action ver b64decode compute body
              = dispatch ver b64decode compute k2 body)
    ∧ (Controller_action ver b64decode compute body).calls.length ≤ 1 := by
  refine ⟨?_, ?_, ?_⟩
  · intro h
    unfold Controller_action
    have hf : action_table.find? (fun k => body_hasKey body k) = none := by
      rw [List.find?_eq_none]
      intro x hx
      simp [h x hx]
    rw [hf]
  · intro k hk hkey
    unfold Controller_action
    cases hf : action_table.find? (fun k => body_hasKey body k) with
    | none =>
        rw [List.find?_eq_none] at hf
        exact absurd hkey (hf k hk)
    | some k2 =>
        exact ⟨k2, List.mem_of_find?_eq_some hf, List.find?_some hf, rfl⟩
  · unfold Controller_action
    cases hf : action_table.find? (fun k => body_hasKey body k) with
    | none => simp
    | some k2 => exact dispatch_calls_le_one ver b64decode compute k2 body

/-- Witness for C4 at a concrete body carrying the two recognized keys
`reboot` and `migrate`: exactly one handler runs and at most one
backend call is made. -/
theorem action_dispatch_at_most_one_witness :
    (∃ k2, k2 ∈ action_table ∧ body_hasKey body_two_actions k2 = true
      ∧ Controller_action .v10 b64_id compute_ok body_two_actions
          = dispatch .v10 b64_id compute_ok k2 body_two_actions)
    ∧ (Controller_action .v10 b64_id compute_ok body_two_actions).calls.length
        ≤ 1 :=
  ⟨(action_dispatch_at_most_one .v10 b64_id compute_ok body_two_actions).2.1
      "reboot" (by decide) rfl,
   (action_dispatch_at_most_one .v10 b64_id compute_ok body_two_actions).2.2⟩

/-- C5 (counterexample to the claim as stated): in the current protocol
a resize body lacking `resize.flavorRef` is answered 400, not 422: the
handler raises `HTTPUnprocessableEntity` inside its own blanket
`except Exception` block, which converts it to `HTTPBadRequest`. -/
theorem resize_v11_missing_flavorref_is_400 :
    action_resize_v11 compute_ok [("resize", .obj [])] = ⟨[], .status 400⟩
    ∧ (action_resize_v11 compute_ok [("resize", .obj [])]).outcome
        ≠ .status 422 :=
  ⟨rfl, by decide⟩

/-- C5 (amended): legacy resize answers 422 on a missing
`resize.flavorId` without calling the backend, lets a backend exception
propagate unhandled, and answers 202 on success; current resize answers
400 on a missing `resize.flavorRef` without calling the backend (the
internally raised 422 is converted by the blanket handler), resolves the
`flavorRef` hyperlink to an id before the backend call, maps a backend
exception to 400, and answers 202 on success. -/
theorem resize_contracts (compute : ComputeApi) (body : Body) (e : Exc) :
    (getPath body "resize" "flavorId" = none →
      action_resize_v10 compute body = ⟨[], .status 422⟩)
    ∧ (∀ v, getPath body "resize" "flavorId" = some v →
      (compute "resize" = .ok () →
        action_resize_v10 compute body = ⟨[("resize", [v])], .status 202⟩)
      ∧ (compute "resize" = .error e →
        action_resize_v10 compute body = ⟨[("resize", [v])], .unhandled e⟩))
    ∧ (getPath body "resize" "flavorRef" = none →
      action_resize_v11 compute body = ⟨[], .status 400⟩)
    ∧ (∀ href, getPath body "resize" "flavorRef" = some (.str href) →
      (compute "resize" = .ok () →
        action_resize_v11 compute body
          = ⟨[("resize", [.str (get_id_from_href href)])], .status 202⟩)
      ∧ (compute "resize" = .error e →
        action_resize_v11 compute body
          = ⟨[("resize", [.str (get_id_from_href href)])], .status 400⟩)) := by
  refine ⟨?_, ?_, ?_, ?_⟩
  · intro h
    unfold action_resize_v10
    rw [h]
  · intro v h
    constructor
    · intro hc
      unfold action_resize_v10
      rw [h, hc]
    · intro hc
      unfold action_resize_v10
      rw [h, hc]
  · intro h
    unfold action_resize_v11
    rw [h]
  · intro href h
    constructor
    · intro hc
      unfold action_resize_v11
      rw [h, hc]
    · intro hc
      unfold action_resize_v11
      rw [h, hc]

/-- Witness for the amended C5 at concrete bodies: a legacy body without
`flavorId` gets 422; a current body with a `flavorRef` hyperlink gets
202 with the reference resolved to its trailing id. -/
theorem resize_contracts_witness :
    action_resize_v10 compute_ok [("resize", .obj [])] = ⟨[], .status 422⟩
    ∧ action_resize_v11 compute_ok
        [("resize", .obj [("flavorRef", .str "http://host/flavors/3")])]
        = ⟨[("resize", [.str "3"])], .status 202⟩
    ∧ get_id_from_href "http://host/flavors/3" = "3" :=
  ⟨(resize_contracts compute_ok [("resize", .obj [])] (.backend "x")).1 rfl,
   ((resize_contracts compute_ok
      [("resize", .obj [("flavorRef", .str "http://host/flavors/3")])]
      (.backend "x")).2.2.2 "http://host/flavors/3" rfl).1 rfl,
   rfl⟩

/-- C6: a reboot body lacking `reboot.type` is answered 422 with no
backend call; with the type present, a backend exception from the
reboot call is a 422 and a successful call a 202 with an empty body
(one backend invocation in either case). -/
theorem reboot_contract (compute : ComputeApi) (body : Body) (e : Exc) :
    (getPath body "reboot" "type" = none →
      action_reboot compute body = ⟨[], .status 422⟩)
    ∧ (∀ v, getPath body "reboot" "type" = some v →
      (compute "reboot" = .ok () →
        action_reboot compute body = ⟨[("reboot", [])], .status 202⟩)
      ∧ (compute "reboot" = .error e →
        action_reboot compute body = ⟨[("reboot", [])], .status 422⟩)) := by
  constructor
  · intro h
    unfold action_reboot
    rw [h]
  · intro v h
    constructor
    · intro hc
      unfold action_reboot
      rw [h, hc]
    · intro hc
      unfold action_reboot
      rw [h, hc]

/-- Witness for C6 at concrete bodies: the empty reboot body gets 422
with no backend call; a typed reboot body on a healthy backend gets
202. -/
theorem reboot_contract_witness :
    action_reboot compute_ok [("reboot", .obj [])] = ⟨[], .status 422⟩
    ∧ action_reboot compute_ok [("reboot", .obj [("type", .str "HARD")])]
        = ⟨[("reboot", [])], .status 202⟩ :=
  ⟨(reboot_contract compute_ok [("reboot", .obj [])] (.backend "x")).1 rfl,
   ((reboot_contract compute_ok [("reboot", .obj [("type", .str "HARD")])]
      (.backend "x")).2 (.str "HARD") rfl).1 rfl⟩

/-- C8: on a successful backend delete of an existing instance, the
legacy controller responds 202 and the current controller responds 204
with an empty body (the headers serializer forces the 204). -/
theorem delete_status_by_version :
    ControllerV10_delete (.ok ()) = .status 202
    ∧ ControllerV11_delete (.ok ()) = .status 204 :=
  ⟨rfl, rfl⟩

/-- C10: an update request whose parsed body is non-empty but has no
`server` key indexes `body["server"]` unconditionally and raises an
unhandled `KeyError` instead of any mapped HTTP error. -/
theorem update_missing_server_keyerror (ver : Version)
    (compute : ComputeApi) (body : Body) (h1 : body.isEmpty = false)
    (h2 : jlookup body "server" = none) :
    Controller_update ver compute body = .unhandled (.keyError "server") := by
  simp only [Controller_update, h1, Bool.false_eq_true, if_false, h2]

/-- Witness for C10 at the concrete body with only a `foo` key. -/
theorem update_missing_server_keyerror_witness :
    Controller_update .v10 compute_ok [("foo", .obj [])]
        = .unhandled (.keyError "server") :=
  update_missing_server_keyerror .v10 compute_ok [("foo", .obj [])] rfl rfl

end NovaServers
